import Mathlib

/-!
Verification of the `deepseek-worker` Cloudflare Worker.

The repository contains several revisions of the same worker. The embedding
below follows the final, most complete revision (the second document of
`src/unnamed/part_001`): its `chatWithAI` resolver reads
`DEEPSEEK_API_KEY` / `DEEPSEEK_API_URL` / `DEEPSEEK_MODEL` from
`context.env`, supports `systemPrompt`, and generates `session-<Date.now()>`
conversation ids.  The `ping` resolver of the older revision in
`src/unnamed/part_000` is also embedded, since it differs.

JavaScript truthiness on optional environment strings and arguments is made
explicit: a missing variable is `none`, and the empty string is falsy.
-/

/-- JS truthiness of an optional string binding: `undefined` and `""` are
falsy, every other string is truthy. -/
def truthyStr : Option String → Bool
  | none => false
  | some s => !s.isEmpty

/-- JS `a || d` on an optional string `a`: the default `d` is used when `a`
is `undefined` or the empty string. -/
def jsOr (a : Option String) (d : String) : String :=
  match a with
  | none => d
  | some s => if s.isEmpty then d else s

/-- Leading-segment test on character lists (helper for the substring
check). -/
def leadsWith : List Char → List Char → Bool
  | [], _ => true
  | _ :: _, [] => false
  | p :: ps, s :: ss => (p = s) && leadsWith ps ss

/-- Occurrence of `pat` as a contiguous run inside `s` (helper for the
substring check). -/
def occursInList (pat : List Char) : List Char → Bool
  | [] => pat.isEmpty
  | c :: rest => leadsWith pat (c :: rest) || occursInList pat rest

/-- JS `s.includes(pat)`: `pat` occurs as a contiguous substring of `s`. -/
def strIncludes (s pat : String) : Bool :=
  occursInList pat.toList s.toList

/-- Fetch-API `response.ok`: status in the inclusive range 200..299. -/
def okStatus (status : Nat) : Bool :=
  200 ≤ status && status ≤ 299

/-- The worker environment (`context.env`): the three configuration
variables read by the resolver, each possibly unset. -/
structure Env where
  DEEPSEEK_API_KEY : Option String
  DEEPSEEK_API_URL : Option String
  DEEPSEEK_MODEL : Option String
deriving Repr, DecidableEq

/-- A `{role, content}` chat message (GraphQL `Message` and the entries of
the outbound `messages` array). -/
structure Msg where
  role : String
  content : String
deriving Repr, DecidableEq

/-- The single outbound HTTP request built by `chatWithAI`:
`POST {BASE_URL}/v1/chat/completions` with a bearer-token header and the
JSON body `{model, messages, temperature, max_tokens, stream}`.
`temperature` carries the JSON literal of the fixed value `0.7`. -/
structure OutboundRequest where
  url : String
  httpMethod : String
  authorization : String
  model : String
  messages : List Msg
  temperature : String
  max_tokens : Nat
  stream : Bool
deriving Repr, DecidableEq

/-- A JSON scalar, used for the untyped `finish_reason` field: the code
compares it with `=== false`, so its exact kind matters. -/
inductive JsonVal where
  | nullv : JsonVal
  | bool : Bool → JsonVal
  | str : String → JsonVal
  | num : Int → JsonVal
deriving Repr, DecidableEq

/-- The `message` object inside an upstream choice. -/
structure UpMessage where
  content : String
deriving Repr, DecidableEq

/-- One entry of the upstream `choices` array; `message` and
`finish_reason` may each be absent. -/
structure Choice where
  message : Option UpMessage
  finish_reason : Option JsonVal
deriving Repr, DecidableEq

/-- The parsed upstream JSON body; `choices` may be absent. -/
structure UpstreamData where
  choices : Option (List Choice)
deriving Repr, DecidableEq

/-- An upstream HTTP response: its status, the body as text (read on the
error path by `response.text()`), and the body as parsed JSON (read on the
success path by `response.json()`; `none` models a parse failure). -/
structure HttpResponse where
  status : Nat
  bodyText : String
  jsonData : Option UpstreamData
deriving Repr, DecidableEq

/-- The distinct error exits of the `chatWithAI` resolver, one per `throw`
site (plus the rethrown JSON parse failure). -/
inductive ChatError where
  | missingConfig : ChatError
  | insufficientBalance : ChatError
  | upstreamHTTPError : Nat → String → ChatError
  | unexpectedFormat : ChatError
  | invalidJson : ChatError
deriving Repr, DecidableEq

/-- The GraphQL `ChatResponse` returned on success. -/
structure ChatResponse where
  messages : List Msg
  conversationId : String
deriving Repr, DecidableEq

/-- The effective system prompt: the argument when supplied, else the JS
destructuring default `"You are a helpful assistant."`. -/
def effSystemPrompt : Option String → String
  | none => "You are a helpful assistant."
  | some s => s

/-- The outbound `messages` array: the system entry first when the
effective prompt is truthy, then the user entry. -/
def buildMessages (systemPrompt : Option String) (message : String) : List Msg :=
  (if (effSystemPrompt systemPrompt).isEmpty then []
   else [⟨"system", effSystemPrompt systemPrompt⟩]) ++ [⟨"user", message⟩]

/-- The outbound request `chatWithAI` sends: URL `{BASE_URL}/v1/chat/completions`
with defaults `https://api.deepseek.com` and `deepseek-chat`, bearer
authorization, and the fixed body fields `temperature: 0.7`,
`max_tokens: 2000`, `stream: false`. -/
def buildRequest (env : Env) (message : String) (systemPrompt : Option String) :
    OutboundRequest :=
  { url := jsOr env.DEEPSEEK_API_URL "https://api.deepseek.com" ++ "/v1/chat/completions"
    httpMethod := "POST"
    authorization := "Bearer " ++ env.DEEPSEEK_API_KEY.getD ""
    model := jsOr env.DEEPSEEK_MODEL "deepseek-chat"
    messages := buildMessages systemPrompt message
    temperature := "0.7"
    max_tokens := 2000
    stream := false }

/-- `conversationId || session-Date.now()`: the caller value when truthy,
else a freshly generated timestamp id. -/
def newConvId (conversationId : Option String) (now : Nat) : String :=
  match conversationId with
  | none => "session-" ++ toString now
  | some s => if s.isEmpty then "session-" ++ toString now else s

/-- Handling of the upstream response, as in the resolver: non-ok status is
classified by the `Insufficient Balance` substring of the body text;
an ok status has its JSON checked for the `choices[0].message` shape, then
for the `finish_reason === false` balance marker, and otherwise yields the
two-entry `messages` array and the conversation id. -/
def handleResponse (message : String) (conversationId : Option String) (now : Nat)
    (response : HttpResponse) : Except ChatError ChatResponse :=
  if okStatus response.status then
    match response.jsonData with
    | none => .error .invalidJson
    | some data =>
      match data.choices with
      | none => .error .unexpectedFormat
      | some [] => .error .unexpectedFormat
      | some (c0 :: _) =>
        match c0.message with
        | none => .error .unexpectedFormat
        | some m =>
          if c0.finish_reason = some (JsonVal.bool false)
              ∧ strIncludes m.content "Insufficient Balance" = true then
            .error .insufficientBalance
          else
            .ok { messages := [⟨"user", message⟩, ⟨"assistant", m.content⟩]
                  conversationId := newConvId conversationId now }
  else if strIncludes response.bodyText "Insufficient Balance" then
    .error .insufficientBalance
  else
    .error (.upstreamHTTPError response.status response.bodyText)

/-- The `chatWithAI` resolver. `upstream` stands for the ambient `fetch`:
it maps the one outbound request to the upstream response. `now` is
`Date.now()`. The second component records the outbound request actually
sent (`none` when the resolver fails before calling out). -/
def chatWithAI (env : Env) (message : String) (conversationId : Option String)
    (systemPrompt : Option String) (upstream : OutboundRequest → HttpResponse)
    (now : Nat) : Except ChatError ChatResponse × Option OutboundRequest :=
  if truthyStr env.DEEPSEEK_API_KEY then
    let req := buildRequest env message systemPrompt
    (handleResponse message conversationId now (upstream req), some req)
  else
    (.error .missingConfig, none)

/-- The `ping` resolver of the final revision and of `src/src/index.js`. -/
def ping : String := "pong"

/-- The `ping` resolver of the older revision `src/unnamed/part_000`. -/
def pingPart000 : String := "hello, xiaopangza test"

/-- The GraphQL `EnvCheckResult`. -/
structure EnvCheckResult where
  hasApiKey : Bool
  apiUrl : String
  model : String
deriving Repr, DecidableEq

/-- The `envCheck` resolver: guards for a missing context and a missing
`context.env`, then reports key presence (`!!env.DEEPSEEK_API_KEY`) and the
url and model with `Not set` defaults. -/
def envCheck (context : Option (Option Env)) : EnvCheckResult :=
  match context with
  | none => ⟨false, "Context is undefined", "error"⟩
  | some none => ⟨false, "Context.env is undefined", "error"⟩
  | some (some env) =>
      ⟨truthyStr env.DEEPSEEK_API_KEY,
       jsOr env.DEEPSEEK_API_URL "Not set",
       jsOr env.DEEPSEEK_MODEL "Not set"⟩

/-- A worker HTTP reply: status and headers (bodies are not needed by the
routing claims). -/
structure WorkerReply where
  status : Nat
  headers : List (String × String)
deriving Repr, DecidableEq

/-- The headers of the CORS preflight reply in the worker fetch handler. -/
def preflightHeaders : List (String × String) :=
  [("Access-Control-Allow-Origin", "*"),
   ("Access-Control-Allow-Methods", "GET, POST, OPTIONS"),
   ("Access-Control-Allow-Headers", "Content-Type, Authorization, Apollo-Require-Preflight"),
   ("Access-Control-Max-Age", "86400")]

/-- `Headers.set`: replace the value of key `k`, appending when absent. -/
def setHeader : List (String × String) → String → String → List (String × String)
  | [], k, v => [(k, v)]
  | (k0, v0) :: rest, k, v =>
      if k0 = k then (k, v) :: rest else (k0, v0) :: setHeader rest k v

/-- The worker `fetch` handler of the final revision: an `OPTIONS` request
gets a 204 preflight reply; a url containing `/env-check` gets a direct
JSON reply; everything else is delegated to the GraphQL layer (`yogaReply`)
with CORS headers forced on. The boolean records whether the GraphQL layer
was invoked. -/
def workerFetch (httpMethod url : String) (yogaReply : WorkerReply) :
    WorkerReply × Bool :=
  if httpMethod = "OPTIONS" then
    (⟨204, preflightHeaders⟩, false)
  else if strIncludes url "/env-check" then
    (⟨200, [("Content-Type", "application/json"),
            ("Access-Control-Allow-Origin", "*")]⟩, false)
  else
    (⟨yogaReply.status,
      setHeader (setHeader (setHeader yogaReply.headers
          "Access-Control-Allow-Origin" "*")
        "Access-Control-Allow-Methods" "GET, POST, OPTIONS")
        "Access-Control-Allow-Headers" "Content-Type, Authorization"⟩, true)

/-! Concrete fixtures used by witnesses and counterexamples. -/

/-- An environment with the API key set and the optional variables unset. -/
def envW : Env := ⟨some "test-key", none, none⟩

/-- An upstream that answers 200 with one well-formed choice. -/
def upOk : OutboundRequest → HttpResponse :=
  fun _ => ⟨200, "", some ⟨some [⟨some ⟨"Hi there"⟩, some (.str "stop")⟩]⟩⟩

/-- An upstream that answers 402 with an insufficient-balance body. -/
def up402 : OutboundRequest → HttpResponse :=
  fun _ => ⟨402, "Error: Insufficient Balance", none⟩

/-- An upstream that answers 200 with a body lacking `choices`. -/
def upNoChoices : OutboundRequest → HttpResponse :=
  fun _ => ⟨200, "", some ⟨none⟩⟩

/-- An upstream that answers 200 with a string `finish_reason` and a
content mentioning `Insufficient Balance`. -/
def upBalanceText : OutboundRequest → HttpResponse :=
  fun _ =>
    ⟨200, "", some ⟨some [⟨some ⟨"Insufficient Balance is a phrase"⟩,
      some (.str "stop")⟩]⟩⟩

/-! Helper lemmas shared by several claim theorems. -/

/-- A generated `session-` id is never the empty string. -/
theorem session_id_ne_empty (now : Nat) : ("session-" ++ toString now) ≠ "" := by
  intro h
  have hlen := congrArg String.length h
  rw [String.length_append] at hlen
  have h8 : ("session-" : String).length = 8 := rfl
  have h0 : ("" : String).length = 0 := rfl
  rw [h8, h0] at hlen
  omega

/-- Inversion of `chatWithAI` on its recorded outbound request: when a
request was sent, the key was truthy, the request is `buildRequest`, and
the result is `handleResponse` of the upstream answer. -/
theorem chatWithAI_outbound (env : Env) (msg : String) (cid sp : Option String)
    (up : OutboundRequest → HttpResponse) (now : Nat) (req : OutboundRequest)
    (h : (chatWithAI env msg cid sp up now).2 = some req) :
    req = buildRequest env msg sp ∧
    (chatWithAI env msg cid sp up now).1 = handleResponse msg cid now (up req) := by
  cases htk : truthyStr env.DEEPSEEK_API_KEY with
  | false =>
    unfold chatWithAI at h
    rw [htk] at h
    simp at h
  | true =>
    simp only [chatWithAI, htk, if_true] at h ⊢
    injection h with h
    subst h
    exact ⟨rfl, rfl⟩

/-- Inversion of `handleResponse` on success: a success result can only
come from an ok status with a well-shaped body not tripping the
finish-reason balance check, and it fully determines the response. -/
theorem handleResponse_ok_inv (msg : String) (cid : Option String) (now : Nat)
    (r : HttpResponse) (resp : ChatResponse)
    (h : handleResponse msg cid now r = .ok resp) :
    okStatus r.status = true ∧
    ∃ d c0 rest m,
      r.jsonData = some d ∧ d.choices = some (c0 :: rest) ∧ c0.message = some m ∧
      resp = ⟨[⟨"user", msg⟩, ⟨"assistant", m.content⟩], newConvId cid now⟩ := by
  obtain ⟨status, bodyText, jd⟩ := r
  by_cases hok : okStatus status = true
  · cases jd with
    | none => simp [handleResponse, hok] at h
    | some data =>
      obtain ⟨ch⟩ := data
      cases ch with
      | none => simp [handleResponse, hok] at h
      | some cs =>
        cases cs with
        | nil => simp [handleResponse, hok] at h
        | cons c0 rest =>
          obtain ⟨om, fr⟩ := c0
          cases om with
          | none => simp [handleResponse, hok] at h
          | some m =>
            by_cases hbal : fr = some (JsonVal.bool false)
                ∧ strIncludes m.content "Insufficient Balance" = true
            · simp [handleResponse, hok, hbal] at h
            · simp only [handleResponse, hok, if_true, if_neg hbal] at h
              injection h with h
              exact ⟨hok, ⟨⟨some (⟨some m, fr⟩ :: rest)⟩, ⟨some m, fr⟩, rest, m,
                rfl, rfl, rfl, h.symm⟩⟩
  · simp only [handleResponse, if_neg hok] at h
    split at h <;> exact Except.noConfusion h

/-- Evaluation of `chatWithAI` under a truthy key: the request sent is
`buildRequest` and the result is `handleResponse` of the upstream answer. -/
theorem chatWithAI_sent (env : Env) (msg : String) (cid sp : Option String)
    (up : OutboundRequest → HttpResponse) (now : Nat)
    (htk : truthyStr env.DEEPSEEK_API_KEY = true) :
    chatWithAI env msg cid sp up now =
      (handleResponse msg cid now (up (buildRequest env msg sp)),
       some (buildRequest env msg sp)) := by
  simp only [chatWithAI, htk, if_true]

/-- Claim C1: whenever `chatWithAI` succeeds on a non-empty message, the
returned `messages` list has exactly two entries: the echoed user message
first, then an assistant entry carrying `choices[0].message.content` of the
upstream reply. -/
theorem chatWithAI_success_two_messages (env : Env) (msg : String)
    (cid sp : Option String) (up : OutboundRequest → HttpResponse) (now : Nat)
    (resp : ChatResponse) (hmsg : msg ≠ "")
    (h : (chatWithAI env msg cid sp up now).1 = .ok resp) :
    ∃ req d c0 rest m,
      (chatWithAI env msg cid sp up now).2 = some req ∧
      (up req).jsonData = some d ∧
      d.choices = some (c0 :: rest) ∧
      c0.message = some m ∧
      resp.messages = [⟨"user", msg⟩, ⟨"assistant", m.content⟩] := by
  cases htk : truthyStr env.DEEPSEEK_API_KEY with
  | false =>
    unfold chatWithAI at h
    rw [htk] at h
    simp at h
  | true =>
    rw [chatWithAI_sent env msg cid sp up now htk] at h ⊢
    obtain ⟨-, d, c0, rest, m, hd, hch, hm, hresp⟩ :=
      handleResponse_ok_inv msg cid now _ resp h
    exact ⟨buildRequest env msg sp, d, c0, rest, m, rfl, hd, hch, hm,
      by rw [hresp]⟩

/-- Witness for claim C1 on a concrete successful exchange. -/
theorem chatWithAI_success_two_messages_check :
    ("Hello" : String) ≠ "" ∧
    (chatWithAI envW "Hello" none none upOk 42).1 =
      Except.ok ⟨[⟨"user", "Hello"⟩, ⟨"assistant", "Hi there"⟩], "session-42"⟩ ∧
    (∃ req d c0 rest m,
      (chatWithAI envW "Hello" none none upOk 42).2 = some req ∧
      (upOk req).jsonData = some d ∧
      d.choices = some (c0 :: rest) ∧
      c0.message = some m ∧
      (⟨[⟨"user", "Hello"⟩, ⟨"assistant", "Hi there"⟩], "session-42"⟩ :
        ChatResponse).messages = [⟨"user", "Hello"⟩, ⟨"assistant", m.content⟩]) :=
  ⟨by decide, rfl,
    chatWithAI_success_two_messages envW "Hello" none none upOk 42
      ⟨[⟨"user", "Hello"⟩, ⟨"assistant", "Hi there"⟩], "session-42"⟩
      (by decide) rfl⟩

/-- Claim C2 counterexample: the empty string is a legal supplied
`conversationId`, yet the resolver does not echo it: it returns the
generated `session-42`, which differs from the supplied `""`. -/
theorem conversationId_empty_not_echoed :
    (chatWithAI envW "Hello" (some "") none upOk 42).1 =
      Except.ok ⟨[⟨"user", "Hello"⟩, ⟨"assistant", "Hi there"⟩], "session-42"⟩ ∧
    ("session-42" : String) ≠ "" :=
  ⟨rfl, by decide⟩

/-- Claim C2 (amended): on success, a supplied non-empty `conversationId`
is echoed unchanged, while an omitted or empty one yields the generated
non-empty `session-<now>` identifier. -/
theorem chatWithAI_conversationId (env : Env) (msg : String)
    (cid sp : Option String) (up : OutboundRequest → HttpResponse) (now : Nat)
    (resp : ChatResponse)
    (h : (chatWithAI env msg cid sp up now).1 = .ok resp) :
    (∀ s, cid = some s → s ≠ "" → resp.conversationId = s) ∧
    ((cid = none ∨ cid = some "") →
      resp.conversationId = "session-" ++ toString now ∧
      resp.conversationId ≠ "") := by
  cases htk : truthyStr env.DEEPSEEK_API_KEY with
  | false =>
    unfold chatWithAI at h
    rw [htk] at h
    simp at h
  | true =>
    rw [chatWithAI_sent env msg cid sp up now htk] at h
    obtain ⟨-, d, c0, rest, m, -, -, -, hresp⟩ :=
      handleResponse_ok_inv msg cid now _ resp h
    subst hresp
    constructor
    · intro s hs hne
      subst hs
      simp [newConvId, String.isEmpty_iff, hne]
    · rintro (hcid | hcid) <;> subst hcid
      · exact ⟨rfl, session_id_ne_empty now⟩
      · exact ⟨rfl, session_id_ne_empty now⟩

/-- Witness for claim C2 (amended) on a concrete successful exchange. -/
theorem chatWithAI_conversationId_check :
    (chatWithAI envW "Hello" (some "abc") none upOk 42).1 =
      Except.ok ⟨[⟨"user", "Hello"⟩, ⟨"assistant", "Hi there"⟩], "abc"⟩ ∧
    ((∀ s, (some "abc" : Option String) = some s → s ≠ "" →
        (⟨[⟨"user", "Hello"⟩, ⟨"assistant", "Hi there"⟩], "abc"⟩ :
          ChatResponse).conversationId = s) ∧
     (((some "abc" : Option String) = none ∨ (some "abc" : Option String) = some "") →
        (⟨[⟨"user", "Hello"⟩, ⟨"assistant", "Hi there"⟩], "abc"⟩ :
          ChatResponse).conversationId = "session-" ++ toString 42 ∧
        (⟨[⟨"user", "Hello"⟩, ⟨"assistant", "Hi there"⟩], "abc"⟩ :
          ChatResponse).conversationId ≠ "")) :=
  ⟨rfl, chatWithAI_conversationId envW "Hello" (some "abc") none upOk 42
    ⟨[⟨"user", "Hello"⟩, ⟨"assistant", "Hi there"⟩], "abc"⟩ rfl⟩

/-- Claim C3: with the API key absent from the environment, `chatWithAI`
fails with the missing-configuration error and the recorded outbound
request is `none`, so no upstream HTTP call precedes the failure. -/
theorem chatWithAI_missing_key_no_call (env : Env) (msg : String)
    (cid sp : Option String) (up : OutboundRequest → HttpResponse) (now : Nat)
    (hkey : env.DEEPSEEK_API_KEY = none) :
    chatWithAI env msg cid sp up now = (.error .missingConfig, none) := by
  unfold chatWithAI
  rw [hkey]
  rfl

/-- Witness for claim C3 at a fully unset environment. -/
theorem chatWithAI_missing_key_no_call_check :
    (⟨none, none, none⟩ : Env).DEEPSEEK_API_KEY = none ∧
    chatWithAI ⟨none, none, none⟩ "Hi" none none upOk 7 =
      (.error .missingConfig, none) :=
  ⟨rfl, chatWithAI_missing_key_no_call ⟨none, none, none⟩ "Hi" none none upOk 7 rfl⟩

/-- Claim C4: a non-success upstream status whose body text contains
`Insufficient Balance` is classified as the insufficient-balance error; any
other non-success body yields the generic upstream error carrying the
status and the body. -/
theorem chatWithAI_upstream_error_classified (env : Env) (msg : String)
    (cid sp : Option String) (up : OutboundRequest → HttpResponse) (now : Nat)
    (req : OutboundRequest)
    (hreq : (chatWithAI env msg cid sp up now).2 = some req)
    (hbad : okStatus (up req).status = false) :
    (strIncludes (up req).bodyText "Insufficient Balance" = true →
      (chatWithAI env msg cid sp up now).1 = .error .insufficientBalance) ∧
    (strIncludes (up req).bodyText "Insufficient Balance" = false →
      (chatWithAI env msg cid sp up now).1 =
        .error (.upstreamHTTPError (up req).status (up req).bodyText)) := by
  obtain ⟨-, h1⟩ := chatWithAI_outbound env msg cid sp up now req hreq
  rw [h1]
  constructor <;> intro hinc <;> simp [handleResponse, hbad, hinc]

/-- Witness for claim C4 at a concrete 402 insufficient-balance reply. -/
theorem chatWithAI_upstream_error_classified_check :
    (chatWithAI envW "Hi" none none up402 7).2 =
      some (buildRequest envW "Hi" none) ∧
    okStatus (up402 (buildRequest envW "Hi" none)).status = false ∧
    ((strIncludes (up402 (buildRequest envW "Hi" none)).bodyText
        "Insufficient Balance" = true →
      (chatWithAI envW "Hi" none none up402 7).1 = .error .insufficientBalance) ∧
     (strIncludes (up402 (buildRequest envW "Hi" none)).bodyText
        "Insufficient Balance" = false →
      (chatWithAI envW "Hi" none none up402 7).1 =
        .error (.upstreamHTTPError (up402 (buildRequest envW "Hi" none)).status
          (up402 (buildRequest envW "Hi" none)).bodyText))) :=
  ⟨rfl, rfl,
    chatWithAI_upstream_error_classified envW "Hi" none none up402 7
      (buildRequest envW "Hi" none) rfl rfl⟩

/-- Claim C5: a success-status reply whose parsed JSON lacks a non-empty
`choices` sequence carrying a `choices[0].message` field makes `chatWithAI`
fail with the unexpected-format error. -/
theorem chatWithAI_bad_shape_unexpected_format (env : Env) (msg : String)
    (cid sp : Option String) (up : OutboundRequest → HttpResponse) (now : Nat)
    (req : OutboundRequest) (d : UpstreamData)
    (hreq : (chatWithAI env msg cid sp up now).2 = some req)
    (hok : okStatus (up req).status = true)
    (hdata : (up req).jsonData = some d)
    (hshape : d.choices = none ∨ d.choices = some [] ∨
      ∃ c0 rest, d.choices = some (c0 :: rest) ∧ c0.message = none) :
    (chatWithAI env msg cid sp up now).1 = .error .unexpectedFormat := by
  obtain ⟨-, h1⟩ := chatWithAI_outbound env msg cid sp up now req hreq
  rw [h1]
  rcases hshape with hch | hch | ⟨c0, rest, hch, hm⟩
  · simp [handleResponse, hok, hdata, hch]
  · simp [handleResponse, hok, hdata, hch]
  · simp [handleResponse, hok, hdata, hch, hm]

/-- Witness for claim C5 at a concrete 200 reply with no `choices`. -/
theorem chatWithAI_bad_shape_unexpected_format_check :
    (chatWithAI envW "Hi" none none upNoChoices 7).2 =
      some (buildRequest envW "Hi" none) ∧
    okStatus (upNoChoices (buildRequest envW "Hi" none)).status = true ∧
    (upNoChoices (buildRequest envW "Hi" none)).jsonData =
      some (⟨none⟩ : UpstreamData) ∧
    ((⟨none⟩ : UpstreamData).choices = none ∨
      (⟨none⟩ : UpstreamData).choices = some [] ∨
      ∃ c0 rest, (⟨none⟩ : UpstreamData).choices = some (c0 :: rest) ∧
        c0.message = none) ∧
    (chatWithAI envW "Hi" none none upNoChoices 7).1 = .error .unexpectedFormat :=
  ⟨rfl, rfl, rfl, Or.inl rfl,
    chatWithAI_bad_shape_unexpected_format envW "Hi" none none upNoChoices 7
      (buildRequest envW "Hi" none) ⟨none⟩ rfl rfl rfl (Or.inl rfl)⟩

/-- Claim C6: every outbound request `chatWithAI` sends is a POST to
`{baseURL}/v1/chat/completions` with bearer authorization, the configured
model, `temperature 0.7`, `max_tokens 2000`, `stream false`, and a
messages array of the system entry first (when the effective prompt is
non-empty) followed by the user entry. -/
theorem chatWithAI_outbound_request_shape (env : Env) (msg : String)
    (cid sp : Option String) (up : OutboundRequest → HttpResponse) (now : Nat)
    (req : OutboundRequest)
    (hreq : (chatWithAI env msg cid sp up now).2 = some req) :
    req.url = jsOr env.DEEPSEEK_API_URL "https://api.deepseek.com" ++
      "/v1/chat/completions" ∧
    req.httpMethod = "POST" ∧
    req.authorization = "Bearer " ++ env.DEEPSEEK_API_KEY.getD "" ∧
    req.model = jsOr env.DEEPSEEK_MODEL "deepseek-chat" ∧
    req.temperature = "0.7" ∧
    req.max_tokens = 2000 ∧
    req.stream = false ∧
    ((effSystemPrompt sp).isEmpty = false →
      req.messages = [⟨"system", effSystemPrompt sp⟩, ⟨"user", msg⟩]) ∧
    ((effSystemPrompt sp).isEmpty = true → req.messages = [⟨"user", msg⟩]) := by
  obtain ⟨hr, -⟩ := chatWithAI_outbound env msg cid sp up now req hreq
  subst hr
  refine ⟨rfl, rfl, rfl, rfl, rfl, rfl, rfl, ?_, ?_⟩ <;> intro hp <;>
    simp [buildRequest, buildMessages, hp]

/-- Witness for claim C6 at a concrete call with the default prompt. -/
theorem chatWithAI_outbound_request_shape_check :
    (chatWithAI envW "Hi" none none upOk 7).2 =
      some (buildRequest envW "Hi" none) ∧
    ((buildRequest envW "Hi" none).url =
      jsOr envW.DEEPSEEK_API_URL "https://api.deepseek.com" ++
        "/v1/chat/completions" ∧
    (buildRequest envW "Hi" none).httpMethod = "POST" ∧
    (buildRequest envW "Hi" none).authorization =
      "Bearer " ++ envW.DEEPSEEK_API_KEY.getD "" ∧
    (buildRequest envW "Hi" none).model = jsOr envW.DEEPSEEK_MODEL "deepseek-chat" ∧
    (buildRequest envW "Hi" none).temperature = "0.7" ∧
    (buildRequest envW "Hi" none).max_tokens = 2000 ∧
    (buildRequest envW "Hi" none).stream = false ∧
    ((effSystemPrompt none).isEmpty = false →
      (buildRequest envW "Hi" none).messages =
        [⟨"system", effSystemPrompt none⟩, ⟨"user", "Hi"⟩]) ∧
    ((effSystemPrompt none).isEmpty = true →
      (buildRequest envW "Hi" none).messages = [⟨"user", "Hi"⟩])) :=
  ⟨rfl, chatWithAI_outbound_request_shape envW "Hi" none none upOk 7
    (buildRequest envW "Hi" none) rfl⟩

/-- Claim C7: every OPTIONS request is answered directly with status 204
and the permissive `Access-Control-Allow-Origin: *` header; the GraphQL
layer is not invoked (the flag in the second component stays false). -/
theorem workerFetch_options_preflight (url : String) (yogaReply : WorkerReply) :
    workerFetch "OPTIONS" url yogaReply = (⟨204, preflightHeaders⟩, false) ∧
    (workerFetch "OPTIONS" url yogaReply).1.status = 204 ∧
    ("Access-Control-Allow-Origin", "*") ∈
      (workerFetch "OPTIONS" url yogaReply).1.headers ∧
    (workerFetch "OPTIONS" url yogaReply).2 = false := by
  refine ⟨rfl, rfl, ?_, rfl⟩
  simp [workerFetch, preflightHeaders]

/-- Claim C8 evaluation: the final revision's `ping` resolver returns
`"pong"`, while the `src/unnamed/part_000` revision's `ping` resolver
returns `"hello, xiaopangza test"`, which is not `"pong"`. -/
theorem ping_revisions_eval :
    ping = "pong" ∧ pingPart000 = "hello, xiaopangza test" ∧
    pingPart000 ≠ "pong" :=
  ⟨rfl, rfl, by decide⟩

/-- Claim C9: the `envCheck` result depends only on the presence
(truthiness) of the API key and on the non-secret url and model variables:
environments agreeing on those yield identical results even with different
key values, and each result field is computed from the url, the model and
the key's truthiness alone, so the key's value never flows into the
result. -/
theorem envCheck_key_noninterference (e1 e2 : Env)
    (hurl : e1.DEEPSEEK_API_URL = e2.DEEPSEEK_API_URL)
    (hmodel : e1.DEEPSEEK_MODEL = e2.DEEPSEEK_MODEL)
    (hkey : truthyStr e1.DEEPSEEK_API_KEY = truthyStr e2.DEEPSEEK_API_KEY) :
    envCheck (some (some e1)) = envCheck (some (some e2)) ∧
    (envCheck (some (some e1))).hasApiKey = truthyStr e1.DEEPSEEK_API_KEY ∧
    (envCheck (some (some e1))).apiUrl = jsOr e1.DEEPSEEK_API_URL "Not set" ∧
    (envCheck (some (some e1))).model = jsOr e1.DEEPSEEK_MODEL "Not set" := by
  refine ⟨?_, rfl, rfl, rfl⟩
  simp [envCheck, hurl, hmodel, hkey]

/-- Witness for claim C9: two environments differing only in the key value
(both keys set) yield the same `envCheck` result. -/
theorem envCheck_key_noninterference_check :
    (⟨some "secret-alpha", some "https://u.example", some "m1"⟩ :
      Env).DEEPSEEK_API_URL =
      (⟨some "secret-beta", some "https://u.example", some "m1"⟩ :
        Env).DEEPSEEK_API_URL ∧
    (⟨some "secret-alpha", some "https://u.example", some "m1"⟩ :
      Env).DEEPSEEK_MODEL =
      (⟨some "secret-beta", some "https://u.example", some "m1"⟩ :
        Env).DEEPSEEK_MODEL ∧
    truthyStr (⟨some "secret-alpha", some "https://u.example", some "m1"⟩ :
      Env).DEEPSEEK_API_KEY =
      truthyStr (⟨some "secret-beta", some "https://u.example", some "m1"⟩ :
        Env).DEEPSEEK_API_KEY ∧
    envCheck (some (some ⟨some "secret-alpha", some "https://u.example", some "m1"⟩)) =
      envCheck (some (some ⟨some "secret-beta", some "https://u.example", some "m1"⟩)) :=
  ⟨rfl, rfl, rfl,
    (envCheck_key_noninterference
      ⟨some "secret-alpha", some "https://u.example", some "m1"⟩
      ⟨some "secret-beta", some "https://u.example", some "m1"⟩
      rfl rfl rfl).1⟩

/-- Claim C10: after the shape check passes on a success status, the
insufficient-balance error is raised exactly when `finish_reason` is the
boolean `false` and the content contains `Insufficient Balance`; for any
other `finish_reason` (strings included), or when the substring is absent,
the content is returned verbatim as the assistant message. -/
theorem chatWithAI_finish_reason_balance (env : Env) (msg : String)
    (cid sp : Option String) (up : OutboundRequest → HttpResponse) (now : Nat)
    (req : OutboundRequest) (d : UpstreamData) (c0 : Choice)
    (rest : List Choice) (m : UpMessage)
    (hreq : (chatWithAI env msg cid sp up now).2 = some req)
    (hok : okStatus (up req).status = true)
    (hdata : (up req).jsonData = some d)
    (hch : d.choices = some (c0 :: rest))
    (hm : c0.message = some m) :
    (c0.finish_reason = some (JsonVal.bool false) →
      strIncludes m.content "Insufficient Balance" = true →
      (chatWithAI env msg cid sp up now).1 = .error .insufficientBalance) ∧
    (c0.finish_reason ≠ some (JsonVal.bool false) →
      (chatWithAI env msg cid sp up now).1 =
        .ok ⟨[⟨"user", msg⟩, ⟨"assistant", m.content⟩], newConvId cid now⟩) ∧
    (strIncludes m.content "Insufficient Balance" = false →
      (chatWithAI env msg cid sp up now).1 =
        .ok ⟨[⟨"user", msg⟩, ⟨"assistant", m.content⟩], newConvId cid now⟩) := by
  obtain ⟨-, h1⟩ := chatWithAI_outbound env msg cid sp up now req hreq
  rw [h1]
  refine ⟨?_, ?_, ?_⟩
  · intro hfr hinc
    simp [handleResponse, hok, hdata, hch, hm, hfr, hinc]
  · intro hfr
    simp [handleResponse, hok, hdata, hch, hm, hfr]
  · intro hinc
    simp [handleResponse, hok, hdata, hch, hm, hinc]

/-- Witness for claim C10: a string `finish_reason` with a content that
does contain `Insufficient Balance` is returned verbatim. -/
theorem chatWithAI_finish_reason_balance_check :
    (chatWithAI envW "Hi" none none upBalanceText 7).2 =
      some (buildRequest envW "Hi" none) ∧
    okStatus (upBalanceText (buildRequest envW "Hi" none)).status = true ∧
    (upBalanceText (buildRequest envW "Hi" none)).jsonData =
      some ⟨some [⟨some ⟨"Insufficient Balance is a phrase"⟩,
        some (.str "stop")⟩]⟩ ∧
    ((⟨some [⟨some ⟨"Insufficient Balance is a phrase"⟩, some (.str "stop")⟩]⟩ :
        UpstreamData).choices =
      some (⟨some ⟨"Insufficient Balance is a phrase"⟩, some (.str "stop")⟩ ::
        [])) ∧
    (⟨some ⟨"Insufficient Balance is a phrase"⟩, some (.str "stop")⟩ :
        Choice).message = some ⟨"Insufficient Balance is a phrase"⟩ ∧
    ((⟨some ⟨"Insufficient Balance is a phrase"⟩, some (.str "stop")⟩ :
        Choice).finish_reason ≠ some (JsonVal.bool false) →
      (chatWithAI envW "Hi" none none upBalanceText 7).1 =
        .ok ⟨[⟨"user", "Hi"⟩,
          ⟨"assistant", "Insufficient Balance is a phrase"⟩],
          newConvId none 7⟩) :=
  ⟨rfl, rfl, rfl, rfl, rfl,
    (chatWithAI_finish_reason_balance envW "Hi" none none upBalanceText 7
      (buildRequest envW "Hi" none)
      ⟨some [⟨some ⟨"Insufficient Balance is a phrase"⟩, some (.str "stop")⟩]⟩
      ⟨some ⟨"Insufficient Balance is a phrase"⟩, some (.str "stop")⟩
      [] ⟨"Insufficient Balance is a phrase"⟩
      rfl rfl rfl rfl rfl).2.1⟩
